import Mathlib

/-!
Verification development for the daily-reading-bot repository.

The Python sources are shallowly embedded as Lean functions:

* the three loader modules (`app/loader/daily_reading_loader.py`,
  `app/loader/just_for_today_loader.py`,
  `app/loader/spiritual_principal_a_day_loader.py`) become pure functions
  over `List Char` / `String`, with the concrete regular expressions of the
  source (`_\*([^*]+)\*_`, `\*([^*]+)\*`, `_([^_]+)_`, `\*–\s*([^*]+)\*`,
  `^\s*[–-]\s*`, `[ \t]+`, `\s+`) reimplemented as explicit scanning
  functions with Python `re` leftmost-match semantics;
* `app/services/database_service.py` becomes a state-passing model over an
  explicit `SqlDb` record (the two ORM tables as lists of rows plus
  autoincrement counters);
* the shelve cache plus `ReadingStorage.add_recipient`, `process_reading`
  and `generate_daily_reading_responses` from
  `app/services/daily_reading_service.py` become state-passing functions
  over a `ServiceState` record, with Python exceptions modelled as
  `Except Unit`;
* `app/services/random_zen_quotes_service.py` and the delivery part of
  `app/utils/whatsapp_utils.py` become functions of the (modelled) HTTP
  fetch outcome and of the random choice made by `random.choice`;
* the `retry_on_failure` decorator of `app/services/daily_reading_service.py`
  becomes a recursion over the attempt index, the attempted computation
  being modelled as a map from attempt number to outcome.

The regex scanners are written with an explicit fuel argument (initialised
to the input length) so that they are structurally recursive and reduce
inside the kernel; every recursive call strictly shortens the scanned list,
so fuel equal to the input length is never exhausted.
-/

namespace DailyReadingBot

/-! ## Generic string-scanning helpers (Python `re`/`str` semantics) -/

/-- Python `\s` on the ASCII range: the whitespace class used by `str.strip`
and the `\s*` / `\s+` parts of the loaders' regular expressions. -/
def isPySpace (c : Char) : Bool :=
  c = ' ' || c = '\t' || c = '\n' || c = '\r' || c = '\x0b' || c = '\x0c'

/-- Python `str.strip()`: drop whitespace from both ends. -/
def pyStrip (l : List Char) : List Char :=
  ((l.dropWhile isPySpace).reverse.dropWhile isPySpace).reverse

/-- `isPre sub l` is true when `sub` is a prefix of `l` (decidable Bool). -/
def isPre : List Char → List Char → Bool
  | [], _ => true
  | _ :: _, [] => false
  | a :: s, b :: t => a = b && isPre s t

/-- Python `hay.find(sub)`: index of the leftmost occurrence of `sub` in
`hay` (`none` for Python's `-1`; the empty pattern matches at index 0). -/
def findSub? (sub : List Char) : List Char → Option Nat
  | [] => if isPre sub [] then some 0 else none
  | c :: t => if isPre sub (c :: t) then some 0 else (findSub? sub t).map (· + 1)

/-- Python `hay.rfind(sub)`: index of the rightmost occurrence of `sub` in
`hay` (`none` for Python's `-1`; the empty pattern matches at `hay.length`). -/
def rfindSub? (sub : List Char) (hay : List Char) : Option Nat :=
  ((List.range (hay.length + 1)).filter (fun i => isPre sub (hay.drop i))).getLast?

/-- Python slice `l[a:b]` for non-negative bounds (clamping included). -/
def pySlice (l : List Char) (a b : Nat) : List Char :=
  (l.take b).drop a

/-- `re.findall(d([^d]+)d, l)` for a single delimiter character `d`
(fueled worker): the group contents of the non-overlapping leftmost
matches, each scan continuing just past the closing delimiter.  A match
attempt that fails (empty run or no closing delimiter) restarts one
character after its opening position, exactly as `re` does. -/
def scanDelimGo (d : Char) : Nat → List Char → List (List Char)
  | 0, _ => []
  | _ + 1, [] => []
  | fuel + 1, c :: cs =>
    if c = d then
      let run := cs.takeWhile (fun x => x ≠ d)
      let rest := cs.dropWhile (fun x => x ≠ d)
      if run.isEmpty then scanDelimGo d fuel cs
      else if rest.isEmpty then []
      else run :: scanDelimGo d fuel (rest.drop 1)
    else scanDelimGo d fuel cs

/-- `re.findall(d([^d]+)d, l)` for a single delimiter character `d`. -/
def scanDelim (d : Char) (l : List Char) : List (List Char) :=
  scanDelimGo d l.length l

/-- `re.search(d([^d]+)d, l)` (fueled worker): group of the leftmost match. -/
def searchDelimGo (d : Char) : Nat → List Char → Option (List Char)
  | 0, _ => none
  | _ + 1, [] => none
  | fuel + 1, c :: cs =>
    if c = d then
      let run := cs.takeWhile (fun x => x ≠ d)
      let rest := cs.dropWhile (fun x => x ≠ d)
      if run.isEmpty then searchDelimGo d fuel cs
      else if rest.isEmpty then none
      else some run
    else searchDelimGo d fuel cs

/-- `re.search(d([^d]+)d, l)` for a single delimiter character `d`. -/
def searchDelim (d : Char) (l : List Char) : Option (List Char) :=
  searchDelimGo d l.length l

/-- `re.search(r'_\*([^*]+)\*_', l)` (fueled worker): the date anchor used
by all three loaders.  A match at a position needs `_*`, a nonempty run of
non-`*` characters, then `*_`; on failure the scan restarts one character
after the opening `_`. -/
def dateSearchGo : Nat → List Char → Option (List Char)
  | 0, _ => none
  | _ + 1, [] => none
  | fuel + 1, '_' :: '*' :: cs =>
    let run := cs.takeWhile (fun x => x ≠ '*')
    let rest := cs.dropWhile (fun x => x ≠ '*')
    if run.isEmpty then dateSearchGo fuel ('*' :: cs)
    else
      match rest with
      | '*' :: '_' :: _ => some run
      | _ => dateSearchGo fuel ('*' :: cs)
  | fuel + 1, _ :: cs => dateSearchGo fuel cs

/-- `re.search(r'_\*([^*]+)\*_', l)`. -/
def dateSearch (l : List Char) : Option (List Char) :=
  dateSearchGo l.length l

/-- `re.search(r'\*–\s*([^*]+)\*', l)` (fueled worker): the
em-dash-prefixed bold source anchor of the dr loader.  The returned group
reflects the greedy `\s*`: the segment between the dash and the closing
`*` with its leading whitespace removed, except that a purely-whitespace
segment yields just its final character (the `\s*` backtracks one step). -/
def dashStarSearchGo : Nat → List Char → Option (List Char)
  | 0, _ => none
  | _ + 1, [] => none
  | fuel + 1, '*' :: '–' :: cs =>
    let seg := cs.takeWhile (fun x => x ≠ '*')
    let rest := cs.dropWhile (fun x => x ≠ '*')
    if seg.isEmpty then dashStarSearchGo fuel ('–' :: cs)
    else if rest.isEmpty then dashStarSearchGo fuel ('–' :: cs)
    else
      let g := seg.dropWhile isPySpace
      some (if g.isEmpty then seg.drop (seg.length - 1) else g)
  | fuel + 1, _ :: cs => dashStarSearchGo fuel cs

/-- `re.search(r'\*–\s*([^*]+)\*', l)`. -/
def dashStarSearch (l : List Char) : Option (List Char) :=
  dashStarSearchGo l.length l

/-- `re.sub(r'^\s*[D]\s*', '', l)` where `D` is a character class of dash
characters: strip one leading dash (with surrounding whitespace) if present. -/
def stripLeadDash (dashes : List Char) (l : List Char) : List Char :=
  match l.dropWhile isPySpace with
  | c :: rest => if c ∈ dashes then rest.dropWhile isPySpace else l
  | [] => l

/-- `re.sub` of a one-or-more character-class run by a single replacement
character (fueled worker): used for `[ \t]+ → ' '` and `\s+ → ' '`. -/
def collapseRunsGo (p : Char → Bool) (r : Char) : Nat → List Char → List Char
  | 0, _ => []
  | _ + 1, [] => []
  | fuel + 1, c :: cs =>
    if p c then r :: collapseRunsGo p r fuel (cs.dropWhile p)
    else c :: collapseRunsGo p r fuel cs

/-- `re.sub` of a one-or-more character-class run by a single character. -/
def collapseRuns (p : Char → Bool) (r : Char) (l : List Char) : List Char :=
  collapseRunsGo p r l.length l

/-! ## The parsed reading record (result dict of the loaders) -/

/-- The dictionary returned by each loader's `parse_reading_to_dict`. -/
structure ReadingDict where
  reading_type : String
  date : String
  heading : String
  quote : String
  source : String
  narrative : String
  affirmation : String
deriving DecidableEq

/-- Option-valued group content, stripped — the ubiquitous
`m.group(1).strip() if m else ""` idiom of the loaders. -/
def groupOrEmpty (m : Option (List Char)) : List Char :=
  match m with
  | some g => pyStrip g
  | none => []

/-- Python `ms[-1].strip() if ms else ""` on a `findall` result. -/
def lastMatchOrEmpty (ms : List (List Char)) : List Char :=
  match ms.getLast? with
  | some g => pyStrip g
  | none => []

/-- Python `ms[i].strip() if len(ms) > i else ""` on a `findall` result. -/
def idxMatchOrEmpty (ms : List (List Char)) (i : Nat) : List Char :=
  match ms.get? i with
  | some g => pyStrip g
  | none => []

namespace daily_reading_loader

/-- `app/loader/daily_reading_loader.py`, `parse_reading_to_dict`. -/
def parse_reading_to_dict (content : String) : ReadingDict :=
  let cs := content.toList
  let date := groupOrEmpty (dateSearch cs)
  let all_star_matches := scanDelim '*' cs
  let heading := idxMatchOrEmpty all_star_matches 1
  let quote :=
    if heading ≠ [] then
      match findSub? heading cs with
      | some heading_pos =>
        groupOrEmpty (searchDelim '_' (cs.drop (heading_pos + heading.length)))
      | none => []
    else
      groupOrEmpty (searchDelim '_' cs)
  let source := groupOrEmpty (dashStarSearch cs)
  let affirmation := lastMatchOrEmpty all_star_matches
  let narrative :=
    if source ≠ [] ∧ affirmation ≠ [] then
      match findSub? source cs, findSub? affirmation cs with
      | some source_pos, some affirmation_pos =>
        if source_pos < affirmation_pos then
          let narrative_start := source_pos + source.length + 1
          collapseRuns (fun c => c = ' ' || c = '\t') ' '
            (stripLeadDash ['–', '-']
              (pyStrip (pySlice cs narrative_start (affirmation_pos - 1))))
        else []
      | _, _ => []
    else []
  ⟨"dr", String.mk date, String.mk heading, String.mk quote, String.mk source,
    String.mk narrative, String.mk affirmation⟩

end daily_reading_loader

namespace just_for_today_loader

/-- `app/loader/just_for_today_loader.py`, `parse_reading_to_dict`. -/
def parse_reading_to_dict (content : String) : ReadingDict :=
  let cs := content.toList
  let date := groupOrEmpty (dateSearch cs)
  let all_star_matches := scanDelim '*' cs
  let heading := idxMatchOrEmpty all_star_matches 2
  let quote :=
    if heading ≠ [] then
      match findSub? heading cs with
      | some heading_pos =>
        groupOrEmpty (searchDelim '_' (cs.drop (heading_pos + heading.length)))
      | none => []
    else
      groupOrEmpty (searchDelim '_' cs)
  let source :=
    if quote ≠ [] then
      match findSub? quote cs with
      | some quote_pos =>
        groupOrEmpty (searchDelim '*' (cs.drop (quote_pos + quote.length)))
      | none => []
    else []
  let last_star_content := lastMatchOrEmpty all_star_matches
  let affirmation := match rfindSub? last_star_content cs with
    | some last_star_pos =>
      let affirmation_start := last_star_pos + last_star_content.length + 1
      collapseRuns isPySpace ' '
        (stripLeadDash ['–', '-'] (pyStrip (cs.drop affirmation_start)))
    | none => []
  let narrative :=
    if source ≠ [] ∧ affirmation ≠ [] then
      match findSub? source cs with
      | some source_pos =>
        let narrative_start := source_pos + source.length + 1
        match rfindSub? last_star_content cs with
        | some last_star_pos =>
          if narrative_start + 1 < last_star_pos then
            collapseRuns (fun c => c = ' ' || c = '\t') ' '
              (stripLeadDash ['–', '-']
                (pyStrip (pySlice cs narrative_start (last_star_pos - 1))))
          else []
        | none => []
      | none => []
    else []
  ⟨"jft", String.mk date, String.mk heading, String.mk quote, String.mk source,
    String.mk narrative, String.mk affirmation⟩

end just_for_today_loader

namespace spiritual_principal_a_day_loader

/-- `app/loader/spiritual_principal_a_day_loader.py`,
`parse_reading_to_dict`.  The leading-dash character class of the narrative
clean-up reproduces the mojibake of the source (`[â€“-]`). -/
def parse_reading_to_dict (content : String) : ReadingDict :=
  let cs := content.toList
  let date := groupOrEmpty (dateSearch cs)
  let all_star_matches := scanDelim '*' cs
  let heading := idxMatchOrEmpty all_star_matches 2
  let quote :=
    if heading ≠ [] then
      match findSub? heading cs with
      | some heading_pos =>
        groupOrEmpty (searchDelim '_' (cs.drop (heading_pos + heading.length)))
      | none => []
    else
      groupOrEmpty (searchDelim '_' cs)
  let source :=
    if quote ≠ [] then
      match findSub? quote cs with
      | some quote_pos =>
        groupOrEmpty (searchDelim '*' (cs.drop (quote_pos + quote.length)))
      | none => []
    else []
  let all_underscore_matches := scanDelim '_' cs
  let affirmation :=
    if 1 < all_underscore_matches.length then
      lastMatchOrEmpty all_underscore_matches
    else []
  let narrative :=
    if source ≠ [] ∧ affirmation ≠ [] then
      match findSub? source cs with
      | some source_pos =>
        let narrative_start := source_pos + source.length + 1
        match rfindSub? affirmation cs with
        | some last_underscore_pos =>
          if narrative_start + 1 < last_underscore_pos then
            collapseRuns (fun c => c = ' ' || c = '\t') ' '
              (stripLeadDash ['â', '€', '“', '-']
                (pyStrip (pySlice cs narrative_start (last_underscore_pos - 1))))
          else []
        | none => []
      | none => []
    else []
  ⟨"spad", String.mk date, String.mk heading, String.mk quote, String.mk source,
    String.mk narrative, String.mk affirmation⟩

end spiritual_principal_a_day_loader

/-! ## Durable store (`app/models/models.py`, `app/services/database_service.py`)

The two ORM tables become lists of rows in insertion order; SQLAlchemy's
autoincrement primary keys become explicit counters.  `query(...).first()`
becomes `List.find?`. -/

/-- A row of the `readings` table (`app/models/models.py`, `Reading`). -/
structure Reading where
  id : Nat
  reading_type : String
  date : String
  heading : String
  quote : String
  source : String
  narrative : String
  affirmation : String
deriving DecidableEq

/-- A row of the `recipients` table (`app/models/models.py`, `Recipient`). -/
structure Recipient where
  id : Nat
  wa_id : String
  sent : String
  reading_id : Nat
deriving DecidableEq

/-- The SQLite database state seen through `DatabaseService`. -/
structure SqlDb where
  readings : List Reading
  recipients : List Recipient
  next_reading_id : Nat
  next_recipient_id : Nat
deriving DecidableEq

namespace DatabaseService

/-- `DatabaseService.store_reading_dict`: return the existing row for
`(date, reading_type)` if one is found, otherwise insert a fresh row built
from the dictionary and return it. -/
def store_reading_dict (db : SqlDb) (d : ReadingDict) : Reading × SqlDb :=
  match db.readings.find?
      (fun r => r.date == d.date && r.reading_type == d.reading_type) with
  | some existing_reading => (existing_reading, db)
  | none =>
    let reading : Reading :=
      ⟨db.next_reading_id, d.reading_type, d.date, d.heading, d.quote,
        d.source, d.narrative, d.affirmation⟩
    (reading,
      { db with
        readings := db.readings ++ [reading],
        next_reading_id := db.next_reading_id + 1 })

/-- `DatabaseService.add_recipient_to_reading`: return the existing row
for `(reading_id, wa_id)` if one is found, otherwise insert a fresh row
(`sent` defaulting to the current time `now`) and return it. -/
def add_recipient_to_reading (db : SqlDb) (reading_id : Nat) (wa_id : String)
    (sent : Option String) (now : String) : Recipient × SqlDb :=
  match db.recipients.find?
      (fun r => r.reading_id == reading_id && r.wa_id == wa_id) with
  | some existing_recipient => (existing_recipient, db)
  | none =>
    let recipient : Recipient :=
      ⟨db.next_recipient_id, wa_id, sent.getD now, reading_id⟩
    (recipient,
      { db with
        recipients := db.recipients ++ [recipient],
        next_recipient_id := db.next_recipient_id + 1 })

/-- `DatabaseService.get_reading_by_date_and_type`. -/
def get_reading_by_date_and_type (db : SqlDb) (date reading_type : String) :
    Option Reading :=
  db.readings.find?
    (fun r => r.date == date && r.reading_type == reading_type)

end DatabaseService

/-! ## Shelve cache and `ReadingStorage` (`app/services/daily_reading_service.py`) -/

/-- One element of a cached entry's `recipients` list. -/
structure CacheRecipient where
  wa_id : String
  sent : String
deriving DecidableEq

/-- A cached entry `{"text": ..., "extract_date": ..., "recipients": [...]}`. -/
structure RawReadingEntry where
  text : String
  extract_date : String
  recipients : List CacheRecipient
deriving DecidableEq

/-- The per-key dictionary of the shelf, keyed by date string. -/
abbrev ReadingsMap := List (String × RawReadingEntry)

/-- The shelve file: reading key (dr/jft/spad) to per-date dictionary. -/
abbrev Shelf := List (String × ReadingsMap)

/-- Python dict assignment `m[k] = v` on an insertion-ordered dictionary. -/
def updateAssoc {β : Type} : List (String × β) → String → β → List (String × β)
  | [], k, v => [(k, v)]
  | (k0, v0) :: t, k, v =>
    if k0 = k then (k, v) :: t else (k0, v0) :: updateAssoc t k v

/-- The mutable state touched by the reading service: the shelve cache and
the SQLite database. -/
structure ServiceState where
  shelf : Shelf
  db : SqlDb
deriving DecidableEq

/-- The dr reading key. -/
def DR_KEY : String := "dr"

/-- The jft reading key. -/
def JFT_KEY : String := "jft"

/-- The spad reading key. -/
def SPAD_KEY : String := "spad"

namespace ReadingStorage

/-- `ReadingStorage.retrieve_readings`: `readings_shelf.get(key, {})`. -/
def retrieve_readings (shelf : Shelf) (key : String) : ReadingsMap :=
  (List.lookup key shelf).getD []

/-- The SQLite half of `ReadingStorage.add_recipient`: look the reading up
by `(today, key)` and, when found, add the recipient row (the cache is not
consulted and not modified here). -/
def mirror_recipient_db (db : SqlDb) (today key wa_id now : String) : SqlDb :=
  match DatabaseService.get_reading_by_date_and_type db today key with
  | some reading =>
    (DatabaseService.add_recipient_to_reading db reading.id wa_id
      (some now) now).2
  | none => db

/-- `ReadingStorage.add_recipient`: append `{"wa_id": ..., "sent": now}` to
the cached recipients list of `(key, today)`, then mirror the recipient
into SQLite when a matching `Reading` row exists.  A missing shelf key or
missing date entry raises (`AttributeError` caught and re-raised as
`DatabaseError`), modelled as `Except.error`. -/
def add_recipient (s : ServiceState) (today key wa_id now : String) :
    Except Unit ServiceState :=
  match List.lookup key s.shelf with
  | none => .error ()
  | some readings =>
    match List.lookup today readings with
    | none => .error ()
    | some entry =>
      let recipient : CacheRecipient := ⟨wa_id, now⟩
      let entry2 := { entry with recipients := entry.recipients ++ [recipient] }
      let readings2 := updateAssoc readings today entry2
      let shelf2 := updateAssoc s.shelf key readings2
      .ok ⟨shelf2, mirror_recipient_db s.db today key wa_id now⟩

end ReadingStorage

/-- The scrape-and-store operation passed to `process_reading` for one
source (`extract_daily_reflection`, `parse_jft_page` or `parse_spad_page`):
it may mutate both stores and either returns the scraped text or raises. -/
abbrev ProcessFunc := ServiceState → Except Unit (String × ServiceState)

/-- `process_reading` (`app/services/daily_reading_service.py`): take the
cached text for `(key, today)` if present, otherwise invoke the scrape
function; whenever the resulting text is nonempty, record the recipient;
return the text.  Any exception is re-raised as `DatabaseError`. -/
def process_reading (s : ServiceState) (key wa_id today now : String)
    (process_func : ProcessFunc) : Except Unit (String × ServiceState) :=
  let readings := ReadingStorage.retrieve_readings s.shelf key
  let reading_text :=
    match List.lookup today readings with
    | some today_readings => today_readings.text
    | none => ""
  match (if reading_text = "" then process_func s else .ok (reading_text, s)) with
  | .error _ => .error ()
  | .ok (rt, s1) =>
    if rt ≠ "" then
      match ReadingStorage.add_recipient s1 today key wa_id now with
      | .error _ => .error ()
      | .ok s2 => .ok (rt, s2)
    else .ok (rt, s1)

/-- `generate_daily_reading_responses`: process the three sources in the
fixed order dr, jft, spad, collecting nonempty texts; an exception in one
source's processing is caught and the loop continues with the next source,
so the function itself is total (never raises). -/
def generate_daily_reading_responses (s : ServiceState)
    (message_body wa_id today now : String)
    (fdr fjft fspad : ProcessFunc) : List String × ServiceState :=
  let _ := message_body
  let step := fun (acc : List String × ServiceState)
      (p : String × ProcessFunc) =>
    match process_reading acc.2 p.1 wa_id today now p.2 with
    | .ok (reading_text, s2) =>
      (if reading_text ≠ "" then acc.1 ++ [reading_text] else acc.1, s2)
    | .error _ => acc
  [(DR_KEY, fdr), (JFT_KEY, fjft), (SPAD_KEY, fspad)].foldl step ([], s)

/-! ## Zen-quote fallback (`app/services/random_zen_quotes_service.py`,
`app/utils/whatsapp_utils.py`) -/

namespace random_zen_quotes_service

/-- The module-level `jft` list of built-in fallback quotes. -/
def jft : List String :=
  ["*JUST FOR TODAY* my thoughts will be on my recovery, living and enjoying life without the use of drugs.",
   "*JUST FOR TODAY* I will have faith in someone in NA who believes in me and wants to help me in my recovery.",
   "*JUST FOR TODAY* I will have a program. I will try to follow it to the best of my ability.",
   "*JUST FOR TODAY*, through NA, I will try to get a better perspective on my life.",
   "*JUST FOR TODAY* I will be unafraid. My thoughts will be on my new associations, people who are not using and who have found a new way of life. So long as I follow that way, I have nothing to fear."]

/-- The outcome of `requests.get(url)` when the request completes without
raising: a status code and the quote/author fields of the JSON body. -/
structure ZenResponse where
  status_code : Nat
  q : String
  a : String
deriving DecidableEq

/-- `generate_random_zen_quote`: `resp = none` models `requests.get`
raising (the exception propagates — nothing in the function catches it);
a non-200 status returns a `random.choice` of the built-in `jft` list
(the random draw modelled by the index `choice`); a 200 status formats the
fetched quote. -/
def generate_random_zen_quote (resp : Option ZenResponse) (choice : Nat) :
    Except Unit String :=
  match resp with
  | none => .error ()
  | some r =>
    if r.status_code ≠ 200 then
      .ok (jft.getD (choice % jft.length) "")
    else
      .ok ("_*" ++ String.mk (pyStrip r.q.toList) ++ "*_\n - _"
        ++ String.mk (pyStrip r.a.toList) ++ "_")

end random_zen_quotes_service

/-- The reply phase of `process_whatsapp_message`
(`app/utils/whatsapp_utils.py`): given the list returned by
`generate_daily_reading_responses`, send each response; when the list is
empty, send the single quote produced by `generate_random_zen_quote`
(whose exception, if any, propagates).  The result is the list of message
bodies sent. -/
def process_whatsapp_message (responses : List String)
    (zenResp : Option random_zen_quotes_service.ZenResponse) (choice : Nat) :
    Except Unit (List String) :=
  if responses ≠ [] then .ok responses
  else (random_zen_quotes_service.generate_random_zen_quote zenResp choice).map
    (fun q => [q])

/-! ## `retry_on_failure` (`app/services/daily_reading_service.py`)

The wrapped call is modelled as a map `f` from attempt index to outcome.
`retry_wrapper attempts f i` is the loop body from iteration `i` on:
return on the first success, re-raise on failure of the final attempt,
sleep and continue otherwise; the loop falling through (only possible when
`attempts = 0`) returns Python's `None`, modelled as `Except.ok none`. -/

def retry_wrapper (attempts : Nat) (f : Nat → Except String α) :
    Nat → Except String (Option α)
  | i =>
    if _h : i < attempts then
      match f i with
      | .ok a => .ok (some a)
      | .error e =>
        if i = attempts - 1 then .error e else retry_wrapper attempts f (i + 1)
    else .ok none
termination_by i => attempts - i
decreasing_by
  omega

/-- The decorated function: run the retry loop from attempt 0. -/
def retry_on_failure (attempts : Nat) (f : Nat → Except String α) :
    Except String (Option α) :=
  retry_wrapper attempts f 0

/-- Number of invocations of the wrapped function performed by the retry
loop from iteration `i` on. -/
def retry_calls_from (attempts : Nat) (f : Nat → Except String α) :
    Nat → Nat
  | i =>
    if _h : i < attempts then
      match f i with
      | .ok _ => 1
      | .error _ =>
        if i = attempts - 1 then 1 else 1 + retry_calls_from attempts f (i + 1)
    else 0
termination_by i => attempts - i
decreasing_by
  omega

/-- Total invocations of the wrapped function. -/
def retry_calls (attempts : Nat) (f : Nat → Except String α) : Nat :=
  retry_calls_from attempts f 0

/-- Number of `time.sleep(retry_delay)` calls performed by the retry loop
from iteration `i` on (one after each failed non-final attempt). -/
def retry_sleeps_from (attempts : Nat) (f : Nat → Except String α) :
    Nat → Nat
  | i =>
    if _h : i < attempts then
      match f i with
      | .ok _ => 0
      | .error _ =>
        if i = attempts - 1 then 0 else 1 + retry_sleeps_from attempts f (i + 1)
    else 0
termination_by i => attempts - i
decreasing_by
  omega

/-- Total sleeps of the retry loop. -/
def retry_sleeps (attempts : Nat) (f : Nat → Except String α) : Nat :=
  retry_sleeps_from attempts f 0

end DailyReadingBot

deriving instance DecidableEq for Except

namespace DailyReadingBot

/-! ## Observation helpers used by the theorems -/

/-- The text returned by a `process_reading` call, when it does not raise. -/
def resultText (r : Except Unit (String × ServiceState)) : Option String :=
  match r with
  | .ok p => some p.1
  | .error _ => none

/-- The cached recipients list for `(key, today)` in a service state. -/
def cacheRecipients (s : ServiceState) (key today : String) :
    Option (List CacheRecipient) :=
  (List.lookup key s.shelf).bind
    (fun readings => (List.lookup today readings).map (fun e => e.recipients))

/-- The cached recipients list for `(key, today)` after a `process_reading`
call, when it does not raise. -/
def resultRecipients (r : Except Unit (String × ServiceState))
    (key today : String) : Option (List CacheRecipient) :=
  match r with
  | .ok p => cacheRecipients p.2 key today
  | .error _ => none

/-- `n` successive `ReadingStorage.add_recipient` calls with the same
arguments, propagating a raised exception. -/
def add_recipient_iter (today key wa_id now : String) :
    Nat → ServiceState → Except Unit ServiceState
  | 0, s => .ok s
  | n + 1, s =>
    match ReadingStorage.add_recipient s today key wa_id now with
    | .error e => .error e
    | .ok s2 => add_recipient_iter today key wa_id now n s2

/-- The cached recipients list for `(key, today)` after an iterated
`add_recipient`, when no call raised. -/
def iterRecipients (r : Except Unit ServiceState) (key today : String) :
    Option (List CacheRecipient) :=
  match r with
  | .ok s => cacheRecipients s key today
  | .error _ => none

/-- A sequence of `DatabaseService.add_recipient_to_reading` calls
(`reading_id`, `wa_id`, explicit `sent`, fallback `now`), folded over the
database state. -/
def apply_recipient_ops (db : SqlDb) :
    List (Nat × String × Option String × String) → SqlDb
  | [] => db
  | (rid, wid, sent, now) :: t =>
    apply_recipient_ops
      (DatabaseService.add_recipient_to_reading db rid wid sent now).2 t

/-- The `(reading_id, wa_id)` uniqueness invariant of the `recipients`
table. -/
def UniqueRecipients (db : SqlDb) : Prop :=
  db.recipients.Pairwise
    (fun r1 r2 => ¬(r1.reading_id = r2.reading_id ∧ r1.wa_id = r2.wa_id))

/-! ## Helper lemmas -/

theorem lookup_updateAssoc_self {β : Type} (l : List (String × β))
    (k : String) (v : β) : List.lookup k (updateAssoc l k v) = some v := by
  induction l with
  | nil => simp [updateAssoc, List.lookup]
  | cons p t ih =>
    obtain ⟨k0, v0⟩ := p
    by_cases h : k0 = k
    · simp [updateAssoc, h, List.lookup]
    · have hne : k ≠ k0 := fun hh => h hh.symm
      simp [updateAssoc, h, List.lookup, beq_eq_false_iff_ne.mpr hne, ih]

theorem lookup_updateAssoc_ne {β : Type} (l : List (String × β))
    (k k2 : String) (v : β) (h : k ≠ k2) :
    List.lookup k (updateAssoc l k2 v) = List.lookup k l := by
  induction l with
  | nil => simp [updateAssoc, List.lookup, beq_eq_false_iff_ne.mpr h]
  | cons p t ih =>
    obtain ⟨k0, v0⟩ := p
    by_cases h0 : k0 = k2
    · subst h0
      simp [updateAssoc, List.lookup, beq_eq_false_iff_ne.mpr h]
    · by_cases hk : k = k0
      · subst hk
        simp [updateAssoc, h0, List.lookup]
      · simp [updateAssoc, h0, List.lookup, beq_eq_false_iff_ne.mpr hk, ih]

/-- Behaviour of `ReadingStorage.add_recipient` when the cache entry for
`(key, today)` exists: the recipient dict is appended and the SQLite
mirror runs. -/
theorem add_recipient_ok (s : ServiceState) (today key wa_id now : String)
    (readings : ReadingsMap) (entry : RawReadingEntry)
    (hk : List.lookup key s.shelf = some readings)
    (ht : List.lookup today readings = some entry) :
    ReadingStorage.add_recipient s today key wa_id now =
      .ok ⟨updateAssoc s.shelf key
            (updateAssoc readings today
              { entry with recipients := entry.recipients ++ [⟨wa_id, now⟩] }),
          ReadingStorage.mirror_recipient_db s.db today key wa_id now⟩ := by
  unfold ReadingStorage.add_recipient
  simp only [hk, ht]

/-- Behaviour of `process_reading` when the cache holds a nonempty text for
`(key, today)`: the scrape function is not invoked, the text is returned,
and the recipient is recorded. -/
theorem process_reading_cached (s : ServiceState)
    (key wa_id today now : String) (f : ProcessFunc)
    (readings : ReadingsMap) (entry : RawReadingEntry)
    (hk : List.lookup key s.shelf = some readings)
    (ht : List.lookup today readings = some entry)
    (hne : entry.text ≠ "") :
    process_reading s key wa_id today now f =
      .ok (entry.text,
        ⟨updateAssoc s.shelf key
            (updateAssoc readings today
              { entry with recipients := entry.recipients ++ [⟨wa_id, now⟩] }),
          ReadingStorage.mirror_recipient_db s.db today key wa_id now⟩) := by
  unfold process_reading ReadingStorage.retrieve_readings
  rw [hk]
  simp only [Option.getD_some, ht, if_neg hne]
  rw [add_recipient_ok s today key wa_id now readings entry hk ht]
  simp [hne]

/-- Behaviour of `process_reading` when the cache has no entry for
`(key, today)` and the scrape function raises: the exception is re-raised
(as `DatabaseError`). -/
theorem process_reading_nocache_error (s : ServiceState)
    (key wa_id today now : String) (f : ProcessFunc)
    (h0 : List.lookup today (ReadingStorage.retrieve_readings s.shelf key)
      = none)
    (hf : f s = .error ()) :
    process_reading s key wa_id today now f = .error () := by
  unfold process_reading
  simp [h0, hf]

/-! ## Claim theorems -/

/-- **C2.** For every input string, each of the three parser variants is a
total function (the Lean embeddings cannot raise), and for any text in
which the `_*...*_` date anchor does not match, the returned date field is
the empty string for all three variants. -/
theorem c2_missing_date_anchor_yields_empty_date (content : String)
    (h : dateSearch content.toList = none) :
    (daily_reading_loader.parse_reading_to_dict content).date = ""
  ∧ (just_for_today_loader.parse_reading_to_dict content).date = ""
  ∧ (spiritual_principal_a_day_loader.parse_reading_to_dict content).date
      = "" := by
  simp only [String.toList] at h
  unfold daily_reading_loader.parse_reading_to_dict
    just_for_today_loader.parse_reading_to_dict
    spiritual_principal_a_day_loader.parse_reading_to_dict
  refine ⟨?_, ?_, ?_⟩ <;> simp [h, groupOrEmpty]

/-- **C2, witness.** The theorem applied to a text without a date anchor. -/
theorem c2_missing_date_anchor_witness :
    dateSearch ("hello *world* there".toList) = none
  ∧ ((daily_reading_loader.parse_reading_to_dict "hello *world* there").date = ""
    ∧ (just_for_today_loader.parse_reading_to_dict "hello *world* there").date = ""
    ∧ (spiritual_principal_a_day_loader.parse_reading_to_dict
        "hello *world* there").date = "") :=
  ⟨by decide,
    c2_missing_date_anchor_yields_empty_date "hello *world* there" (by decide)⟩

/-- **C7.** The dr parser on the specification's literal fixture yields
exactly the documented fields, and the narrative contains
`"Some narrative."`. -/
theorem c7_dr_fixture_parses_as_documented :
    (daily_reading_loader.parse_reading_to_dict
        "pretext _*May 1*_\n\n*Letting Go*\n_Quote here_\n*– Book, Page 1*\nSome narrative. \n*Affirmation here*").date
      = "May 1"
  ∧ (daily_reading_loader.parse_reading_to_dict
        "pretext _*May 1*_\n\n*Letting Go*\n_Quote here_\n*– Book, Page 1*\nSome narrative. \n*Affirmation here*").heading
      = "Letting Go"
  ∧ (daily_reading_loader.parse_reading_to_dict
        "pretext _*May 1*_\n\n*Letting Go*\n_Quote here_\n*– Book, Page 1*\nSome narrative. \n*Affirmation here*").quote
      = "Quote here"
  ∧ (daily_reading_loader.parse_reading_to_dict
        "pretext _*May 1*_\n\n*Letting Go*\n_Quote here_\n*– Book, Page 1*\nSome narrative. \n*Affirmation here*").source
      = "Book, Page 1"
  ∧ (daily_reading_loader.parse_reading_to_dict
        "pretext _*May 1*_\n\n*Letting Go*\n_Quote here_\n*– Book, Page 1*\nSome narrative. \n*Affirmation here*").affirmation
      = "Affirmation here"
  ∧ (findSub? "Some narrative.".toList
      (daily_reading_loader.parse_reading_to_dict
        "pretext _*May 1*_\n\n*Letting Go*\n_Quote here_\n*– Book, Page 1*\nSome narrative. \n*Affirmation here*").narrative.toList).isSome
      = true := by
  decide

/-- **C9, counterexample.** On the text `"x _a_ y"` the last (and only)
underscore-delimited span is `"a"`, but the spad parser's affirmation
field is empty, not `"a"` trimmed: the claim fails when exactly one
`_..._` span is present. -/
theorem c9_counterexample_single_underscore_span :
    (scanDelim '_' ("x _a_ y".toList)).getLastD [] = ['a']
  ∧ (spiritual_principal_a_day_loader.parse_reading_to_dict "x _a_ y").affirmation
      ≠ String.mk (pyStrip ((scanDelim '_' ("x _a_ y".toList)).getLastD []))
  := by
  decide

/-- **C9, amended.** For every input text, the spad parser's affirmation
field equals the trimmed content of the last underscore-delimited span
when the text contains **more than one** `_..._` span, and is the empty
string otherwise (in particular when no such anchor is present). -/
theorem c9_amended_spad_affirmation (content : String) :
    (spiritual_principal_a_day_loader.parse_reading_to_dict content).affirmation
      = if 1 < (scanDelim '_' content.toList).length then
          String.mk (lastMatchOrEmpty (scanDelim '_' content.toList))
        else "" := by
  unfold spiritual_principal_a_day_loader.parse_reading_to_dict
  by_cases h : 1 < (scanDelim '_' content.data).length
  · simp [h]
  · simp [h]

/-- **C1, counterexample.** With the day's dr text cached, two successive
`process_reading` calls for the same (reading_type, date, wa_id) both
return the full reading text: the second call is not empty/suppressed, so
delivery is not at-most-once. -/
theorem c1_counterexample_second_call_also_delivers :
    resultText (process_reading
        ⟨[("dr", [("May 1", ⟨"Reading text", "e0", []⟩)])], ⟨[], [], 1, 1⟩⟩
        "dr" "wa1" "May 1" "t1" (fun _ => .error ())) = some "Reading text"
  ∧ resultText ((process_reading
        ⟨[("dr", [("May 1", ⟨"Reading text", "e0", []⟩)])], ⟨[], [], 1, 1⟩⟩
        "dr" "wa1" "May 1" "t1" (fun _ => .error ())).bind
      (fun p => process_reading p.2 "dr" "wa1" "May 1" "t2"
        (fun _ => .error ()))) = some "Reading text"
  ∧ some ("Reading text" : String) ≠ some "" := by
  decide

/-- **C1, amended.** Whenever the cache holds a nonempty text for
`(key, today)`, every `process_reading` call — regardless of whether the
recipient was already recorded — returns that text and appends one more
recipient element to the cached list; re-delivery to the same `wa_id` is
recorded but never suppressed. -/
theorem c1_amended_delivery_not_suppressed (s : ServiceState)
    (key wa_id today now : String) (f : ProcessFunc)
    (readings : ReadingsMap) (entry : RawReadingEntry)
    (hk : List.lookup key s.shelf = some readings)
    (ht : List.lookup today readings = some entry)
    (hne : entry.text ≠ "") :
    resultText (process_reading s key wa_id today now f) = some entry.text
  ∧ resultRecipients (process_reading s key wa_id today now f) key today =
      some (entry.recipients ++ [⟨wa_id, now⟩]) := by
  rw [process_reading_cached s key wa_id today now f readings entry hk ht hne]
  constructor
  · rfl
  · simp [resultRecipients, cacheRecipients, lookup_updateAssoc_self]

/-- **C1, witness.** The amended theorem applied to a state in which the
recipient `wa1` is already recorded: the call still returns the text and
appends a second `wa1` element. -/
theorem c1_amended_witness :
    (List.lookup "dr"
        (([("dr", [("May 1", ⟨"T", "e0", [⟨"wa1", "t0"⟩]⟩)])] : Shelf))
      = some [("May 1", ⟨"T", "e0", [⟨"wa1", "t0"⟩]⟩)])
  ∧ (List.lookup "May 1"
        ([("May 1", (⟨"T", "e0", [⟨"wa1", "t0"⟩]⟩ : RawReadingEntry))])
      = some ⟨"T", "e0", [⟨"wa1", "t0"⟩]⟩)
  ∧ (("T" : String) ≠ "")
  ∧ (resultText (process_reading
        ⟨[("dr", [("May 1", ⟨"T", "e0", [⟨"wa1", "t0"⟩]⟩)])], ⟨[], [], 1, 1⟩⟩
        "dr" "wa1" "May 1" "t1" (fun _ => .error ())) = some "T"
    ∧ resultRecipients (process_reading
        ⟨[("dr", [("May 1", ⟨"T", "e0", [⟨"wa1", "t0"⟩]⟩)])], ⟨[], [], 1, 1⟩⟩
        "dr" "wa1" "May 1" "t1" (fun _ => .error ())) "dr" "May 1" =
      some ([⟨"wa1", "t0"⟩] ++ [⟨"wa1", "t1"⟩])) :=
  ⟨by decide, by decide, by decide,
    c1_amended_delivery_not_suppressed
      ⟨[("dr", [("May 1", ⟨"T", "e0", [⟨"wa1", "t0"⟩]⟩)])], ⟨[], [], 1, 1⟩⟩
      "dr" "wa1" "May 1" "t1" (fun _ => .error ())
      [("May 1", ⟨"T", "e0", [⟨"wa1", "t0"⟩]⟩)] ⟨"T", "e0", [⟨"wa1", "t0"⟩]⟩
      (by decide) (by decide) (by decide)⟩

/-- **C10.** The cache-layer recipient list is not deduplicated: from any
state whose cache has an entry for `(key, today)`, `n` successive
`ReadingStorage.add_recipient` calls with the same `wa_id` all succeed and
append `n` further elements for that `wa_id`, even when elements with the
same `wa_id` are already present; the per-`wa_id` count grows by exactly
`n`. -/
theorem c10_cache_recipients_not_deduplicated (s : ServiceState)
    (today key wa_id now : String) (readings : ReadingsMap)
    (entry : RawReadingEntry) (n : Nat)
    (hk : List.lookup key s.shelf = some readings)
    (ht : List.lookup today readings = some entry) :
    iterRecipients (add_recipient_iter today key wa_id now n s) key today =
      some (entry.recipients ++ List.replicate n ⟨wa_id, now⟩)
  ∧ (entry.recipients
        ++ List.replicate n (⟨wa_id, now⟩ : CacheRecipient)).countP
        (fun r => r.wa_id == wa_id)
      = entry.recipients.countP (fun r => r.wa_id == wa_id) + n := by
  constructor
  · induction n generalizing s readings entry with
    | zero =>
      simp [add_recipient_iter, iterRecipients, cacheRecipients, hk, ht]
    | succ n ih =>
      rw [add_recipient_iter,
        add_recipient_ok s today key wa_id now readings entry hk ht]
      rw [ih _ _ _ (lookup_updateAssoc_self s.shelf key _)
        (lookup_updateAssoc_self readings today _)]
      simp [List.replicate_succ]
  · simp [List.countP_append, List.countP_eq_length_filter,
      List.filter_replicate]

/-- **C10, witness.** Two iterated calls from a cache already holding a
`wa1` element: the list gains two more `wa1` elements and the count for
`wa1` goes from 1 to 3. -/
theorem c10_witness :
    (List.lookup "jft"
        (([("jft", [("May 2", ⟨"T2", "e0", [⟨"wa1", "t0"⟩]⟩)])] : Shelf))
      = some [("May 2", ⟨"T2", "e0", [⟨"wa1", "t0"⟩]⟩)])
  ∧ (List.lookup "May 2"
        ([("May 2", (⟨"T2", "e0", [⟨"wa1", "t0"⟩]⟩ : RawReadingEntry))])
      = some ⟨"T2", "e0", [⟨"wa1", "t0"⟩]⟩)
  ∧ (iterRecipients
        (add_recipient_iter "May 2" "jft" "wa1" "t1" 2
          ⟨[("jft", [("May 2", ⟨"T2", "e0", [⟨"wa1", "t0"⟩]⟩)])],
            ⟨[], [], 1, 1⟩⟩) "jft" "May 2" =
        some ([⟨"wa1", "t0"⟩] ++ List.replicate 2 ⟨"wa1", "t1"⟩)
    ∧ ([(⟨"wa1", "t0"⟩ : CacheRecipient)]
          ++ List.replicate 2 (⟨"wa1", "t1"⟩ : CacheRecipient)).countP
          (fun r => r.wa_id == "wa1")
        = ([(⟨"wa1", "t0"⟩ : CacheRecipient)]).countP
            (fun r => r.wa_id == "wa1") + 2) :=
  ⟨by decide, by decide,
    c10_cache_recipients_not_deduplicated
      ⟨[("jft", [("May 2", ⟨"T2", "e0", [⟨"wa1", "t0"⟩]⟩)])], ⟨[], [], 1, 1⟩⟩
      "May 2" "jft" "wa1" "t1"
      [("May 2", ⟨"T2", "e0", [⟨"wa1", "t0"⟩]⟩)] ⟨"T2", "e0", [⟨"wa1", "t0"⟩]⟩
      2 (by decide) (by decide)⟩

/-- **C3.** Failure isolation: when the dr and spad texts for today are
cached (nonempty) and the jft source is not cached and its processing
raises (e.g. the fetch raising after exhausting retries),
`generate_daily_reading_responses` still returns exactly the dr and spad
texts, in that order; the function is total, so the overall call cannot
raise. -/
theorem c3_failure_isolation (s : ServiceState)
    (message_body wa_id today now : String)
    (fdr fjft fspad : ProcessFunc)
    (rdr rspad : ReadingsMap) (edr espad : RawReadingEntry)
    (hkdr : List.lookup DR_KEY s.shelf = some rdr)
    (htdr : List.lookup today rdr = some edr)
    (hdrne : edr.text ≠ "")
    (hjft : List.lookup today
      (ReadingStorage.retrieve_readings s.shelf JFT_KEY) = none)
    (hfjft : ∀ st, fjft st = .error ())
    (hkspad : List.lookup SPAD_KEY s.shelf = some rspad)
    (htspad : List.lookup today rspad = some espad)
    (hspadne : espad.text ≠ "") :
    (generate_daily_reading_responses s message_body wa_id today now
        fdr fjft fspad).1 = [edr.text, espad.text] := by
  have hjft1 : List.lookup today (ReadingStorage.retrieve_readings
      (updateAssoc s.shelf DR_KEY (updateAssoc rdr today
        { edr with recipients := edr.recipients ++ [⟨wa_id, now⟩] }))
      JFT_KEY) = none := by
    unfold ReadingStorage.retrieve_readings at hjft ⊢
    rw [lookup_updateAssoc_ne _ _ _ _ (by decide)]
    exact hjft
  have hkspad1 : List.lookup SPAD_KEY
      (updateAssoc s.shelf DR_KEY (updateAssoc rdr today
        { edr with recipients := edr.recipients ++ [⟨wa_id, now⟩] }))
      = some rspad := by
    rw [lookup_updateAssoc_ne _ _ _ _ (by decide)]
    exact hkspad
  unfold generate_daily_reading_responses
  simp only [List.foldl]
  rw [process_reading_cached s DR_KEY wa_id today now fdr rdr edr
    hkdr htdr hdrne]
  simp only []
  rw [process_reading_nocache_error _ JFT_KEY wa_id today now fjft hjft1
    (hfjft _)]
  simp only []
  rw [process_reading_cached _ SPAD_KEY wa_id today now fspad rspad espad
    hkspad1 htspad hspadne]
  simp [hdrne, hspadne]

/-- **C3, witness.** The theorem applied to a concrete state with cached
dr and spad texts and an always-raising jft processor. -/
theorem c3_failure_isolation_witness :
    (List.lookup DR_KEY
        (([("dr", [("May 3", ⟨"A", "e", []⟩)]),
          ("spad", [("May 3", ⟨"B", "e", []⟩)])] : Shelf))
      = some [("May 3", ⟨"A", "e", []⟩)])
  ∧ (List.lookup "May 3" ([("May 3", (⟨"A", "e", []⟩ : RawReadingEntry))])
      = some ⟨"A", "e", []⟩)
  ∧ (("A" : String) ≠ "")
  ∧ (List.lookup "May 3" (ReadingStorage.retrieve_readings
        ([("dr", [("May 3", ⟨"A", "e", []⟩)]),
          ("spad", [("May 3", ⟨"B", "e", []⟩)])] : Shelf) JFT_KEY) = none)
  ∧ (List.lookup SPAD_KEY
        (([("dr", [("May 3", ⟨"A", "e", []⟩)]),
          ("spad", [("May 3", ⟨"B", "e", []⟩)])] : Shelf))
      = some [("May 3", ⟨"B", "e", []⟩)])
  ∧ (List.lookup "May 3" ([("May 3", (⟨"B", "e", []⟩ : RawReadingEntry))])
      = some ⟨"B", "e", []⟩)
  ∧ (("B" : String) ≠ "")
  ∧ ((generate_daily_reading_responses
        ⟨[("dr", [("May 3", ⟨"A", "e", []⟩)]),
          ("spad", [("May 3", ⟨"B", "e", []⟩)])], ⟨[], [], 1, 1⟩⟩
        "hi" "wa1" "May 3" "t1"
        (fun _ => .error ()) (fun _ => .error ()) (fun _ => .error ())).1
      = ["A", "B"]) :=
  ⟨by decide, by decide, by decide, by decide, by decide, by decide,
    by decide,
    c3_failure_isolation
      ⟨[("dr", [("May 3", ⟨"A", "e", []⟩)]),
        ("spad", [("May 3", ⟨"B", "e", []⟩)])], ⟨[], [], 1, 1⟩⟩
      "hi" "wa1" "May 3" "t1"
      (fun _ => .error ()) (fun _ => .error ()) (fun _ => .error ())
      [("May 3", ⟨"A", "e", []⟩)] [("May 3", ⟨"B", "e", []⟩)]
      ⟨"A", "e", []⟩ ⟨"B", "e", []⟩
      (by decide) (by decide) (by decide) (by decide) (fun st => rfl)
      (by decide) (by decide) (by decide)⟩

/-- **C4, counterexample.** When the aggregate response list is empty and
the zen-quote HTTP request itself raises (modelled by `none`), the
exception propagates out of `process_whatsapp_message` and no fallback
message is sent — in particular no built-in quote is sent, contrary to the
claim that a failing fetch always yields a built-in fallback quote. -/
theorem c4_counterexample_raising_fetch_sends_nothing :
    process_whatsapp_message [] none 0 = .error ()
  ∧ ∀ q ∈ random_zen_quotes_service.jft,
      process_whatsapp_message [] none 0 ≠ .ok [q] := by
  decide

/-- **C4, amended.** Whenever the aggregate response list is empty and the
zen-quote fetch completes with a non-200 status, the caller sends exactly
one fallback message, and it is one of the fixed built-in quotes; only
when the fetch itself raises does the exception propagate instead. -/
theorem c4_amended_fallback_quote (resp : random_zen_quotes_service.ZenResponse)
    (choice : Nat) (h : resp.status_code ≠ 200) :
    process_whatsapp_message [] (some resp) choice =
      .ok [random_zen_quotes_service.jft.getD
        (choice % random_zen_quotes_service.jft.length) ""]
  ∧ random_zen_quotes_service.jft.getD
      (choice % random_zen_quotes_service.jft.length) ""
      ∈ random_zen_quotes_service.jft := by
  constructor
  · simp [process_whatsapp_message,
      random_zen_quotes_service.generate_random_zen_quote, h, Except.map]
  · have hlt : choice % random_zen_quotes_service.jft.length
        < random_zen_quotes_service.jft.length :=
      Nat.mod_lt _ (by decide)
    rw [List.getD_eq_getElem?_getD, List.getElem?_eq_getElem hlt]
    exact List.getElem_mem hlt

/-- **C4, witness.** The amended theorem at a concrete 500 response. -/
theorem c4_amended_witness :
    ((⟨500, "", ""⟩ : random_zen_quotes_service.ZenResponse).status_code ≠ 200)
  ∧ (process_whatsapp_message [] (some ⟨500, "", ""⟩) 0 =
      .ok [random_zen_quotes_service.jft.getD
        (0 % random_zen_quotes_service.jft.length) ""]
    ∧ random_zen_quotes_service.jft.getD
        (0 % random_zen_quotes_service.jft.length) ""
        ∈ random_zen_quotes_service.jft) :=
  ⟨by decide, c4_amended_fallback_quote ⟨500, "", ""⟩ 0 (by decide)⟩

/-- **C5.** `store_reading_dict` is an idempotent insert: starting from a
database with no row for the dictionary's `(reading_type, date)`, calling
it twice with the same dictionary leaves exactly one matching stored row,
and the second call returns the row created by the first call without
changing the database. -/
theorem c5_store_reading_dict_idempotent (db : SqlDb) (d : ReadingDict)
    (h : db.readings.find?
      (fun r => r.date == d.date && r.reading_type == d.reading_type)
      = none) :
    (DatabaseService.store_reading_dict
        (DatabaseService.store_reading_dict db d).2 d).1
      = (DatabaseService.store_reading_dict db d).1
  ∧ (DatabaseService.store_reading_dict
        (DatabaseService.store_reading_dict db d).2 d).2
      = (DatabaseService.store_reading_dict db d).2
  ∧ ((DatabaseService.store_reading_dict db d).2.readings.filter
        (fun r => r.date == d.date && r.reading_type == d.reading_type)).length
      = 1 := by
  have hfind : (db.readings ++
      [(⟨db.next_reading_id, d.reading_type, d.date, d.heading, d.quote,
        d.source, d.narrative, d.affirmation⟩ : Reading)]).find?
      (fun r => r.date == d.date && r.reading_type == d.reading_type)
      = some ⟨db.next_reading_id, d.reading_type, d.date, d.heading, d.quote,
        d.source, d.narrative, d.affirmation⟩ := by
    rw [List.find?_append, h]
    simp [List.find?]
  have hnil : db.readings.filter
      (fun r => r.date == d.date && r.reading_type == d.reading_type)
      = [] := by
    rw [List.filter_eq_nil_iff]
    intro a ha
    have := List.find?_eq_none.mp h a ha
    simp at this
    simp only [Bool.and_eq_true, beq_iff_eq, not_and]
    exact this
  refine ⟨?_, ?_, ?_⟩ <;>
    simp [DatabaseService.store_reading_dict, h, hfind, hnil]

/-- **C5, witness.** The theorem at the empty database and a sample
dictionary. -/
theorem c5_witness :
    ((⟨[], [], 1, 1⟩ : SqlDb).readings.find?
      (fun r => r.date == "May 1" && r.reading_type == "dr") = none)
  ∧ ((DatabaseService.store_reading_dict
        (DatabaseService.store_reading_dict ⟨[], [], 1, 1⟩
          ⟨"dr", "May 1", "H", "Q", "S", "N", "A"⟩).2
        ⟨"dr", "May 1", "H", "Q", "S", "N", "A"⟩).1
      = (DatabaseService.store_reading_dict ⟨[], [], 1, 1⟩
          ⟨"dr", "May 1", "H", "Q", "S", "N", "A"⟩).1
    ∧ (DatabaseService.store_reading_dict
        (DatabaseService.store_reading_dict ⟨[], [], 1, 1⟩
          ⟨"dr", "May 1", "H", "Q", "S", "N", "A"⟩).2
        ⟨"dr", "May 1", "H", "Q", "S", "N", "A"⟩).2
      = (DatabaseService.store_reading_dict ⟨[], [], 1, 1⟩
          ⟨"dr", "May 1", "H", "Q", "S", "N", "A"⟩).2
    ∧ ((DatabaseService.store_reading_dict ⟨[], [], 1, 1⟩
          ⟨"dr", "May 1", "H", "Q", "S", "N", "A"⟩).2.readings.filter
        (fun r => r.date == "May 1" && r.reading_type == "dr")).length = 1) :=
  ⟨by decide,
    c5_store_reading_dict_idempotent ⟨[], [], 1, 1⟩
      ⟨"dr", "May 1", "H", "Q", "S", "N", "A"⟩ (by decide)⟩

instance (db : SqlDb) : Decidable (UniqueRecipients db) := by
  unfold UniqueRecipients
  infer_instance

/-- One `add_recipient_to_reading` call preserves the `(reading_id, wa_id)`
uniqueness invariant. -/
theorem add_recipient_to_reading_preserves_unique (db : SqlDb) (rid : Nat)
    (wid : String) (sent : Option String) (now : String)
    (h : UniqueRecipients db) :
    UniqueRecipients
      (DatabaseService.add_recipient_to_reading db rid wid sent now).2 := by
  unfold DatabaseService.add_recipient_to_reading
  cases hf : db.recipients.find?
      (fun r => r.reading_id == rid && r.wa_id == wid) with
  | some r => simpa using h
  | none =>
    unfold UniqueRecipients at h ⊢
    simp only []
    rw [List.pairwise_append]
    refine ⟨h, by simp, ?_⟩
    intro a ha b hb
    simp only [List.mem_singleton] at hb
    subst hb
    have hnp := List.find?_eq_none.mp hf a ha
    simp only [Bool.and_eq_true, beq_iff_eq, not_and] at hnp
    intro hcon
    exact hnp hcon.1 hcon.2

/-- A whole sequence of `add_recipient_to_reading` calls preserves the
uniqueness invariant. -/
theorem apply_recipient_ops_preserves_unique
    (ops : List (Nat × String × Option String × String)) :
    ∀ db : SqlDb, UniqueRecipients db →
      UniqueRecipients (apply_recipient_ops db ops) := by
  induction ops with
  | nil =>
    intro db h
    simpa [apply_recipient_ops] using h
  | cons op t ih =>
    intro db h
    obtain ⟨rid, wid, sent, now⟩ := op
    rw [apply_recipient_ops]
    exact ih _ (add_recipient_to_reading_preserves_unique db rid wid sent now h)

/-- **C6.** The `(reading_id, wa_id)` uniqueness invariant of the
`recipients` table is preserved by every sequence of
`add_recipient_to_reading` calls, and a call for a pair that already has a
row returns that pre-existing row and leaves the database unchanged. -/
theorem c6_recipient_uniqueness (db : SqlDb)
    (ops : List (Nat × String × Option String × String))
    (h : UniqueRecipients db) :
    UniqueRecipients (apply_recipient_ops db ops)
  ∧ ∀ (rid : Nat) (wid : String) (sent : Option String) (now : String)
      (r : Recipient),
      db.recipients.find? (fun x => x.reading_id == rid && x.wa_id == wid)
        = some r →
      DatabaseService.add_recipient_to_reading db rid wid sent now
        = (r, db) := by
  constructor
  · exact apply_recipient_ops_preserves_unique ops db h
  · intro rid wid sent now r hr
    unfold DatabaseService.add_recipient_to_reading
    rw [hr]

/-- **C6, witness.** Starting from the empty (hence unique) table, two
identical insert operations leave the table unique, and the second of two
explicit calls returns the row inserted by the first. -/
theorem c6_witness :
    UniqueRecipients (⟨[], [], 1, 1⟩ : SqlDb)
  ∧ (UniqueRecipients
      (apply_recipient_ops ⟨[], [], 1, 1⟩
        [(1, "wa1", none, "t0"), (1, "wa1", none, "t1")])
    ∧ ∀ (rid : Nat) (wid : String) (sent : Option String) (now : String)
        (r : Recipient),
        (⟨[], [], 1, 1⟩ : SqlDb).recipients.find?
          (fun x => x.reading_id == rid && x.wa_id == wid) = some r →
        DatabaseService.add_recipient_to_reading ⟨[], [], 1, 1⟩ rid wid
          sent now = (r, ⟨[], [], 1, 1⟩)) :=
  ⟨by decide,
    c6_recipient_uniqueness ⟨[], [], 1, 1⟩
      [(1, "wa1", none, "t0"), (1, "wa1", none, "t1")] (by decide)⟩

/-! ## Retry lemmas (fuel induction over the remaining attempts) -/

theorem retry_calls_from_le {α : Type} (attempts : Nat)
    (f : Nat → Except String α) :
    ∀ (k i : Nat), attempts - i ≤ k →
      retry_calls_from attempts f i ≤ attempts - i := by
  intro k
  induction k with
  | zero =>
    intro i hk
    rw [retry_calls_from]
    have hge : ¬ i < attempts := by omega
    simp [hge]
  | succ k ih =>
    intro i hk
    rw [retry_calls_from]
    by_cases hlt : i < attempts
    · simp only [hlt, dif_pos]
      split
      · omega
      · split
        · omega
        · have := ih (i + 1) (by omega)
          omega
    · simp [hlt]

theorem retry_calls_from_pos {α : Type} (attempts : Nat)
    (f : Nat → Except String α) (i : Nat) (h : i < attempts) :
    1 ≤ retry_calls_from attempts f i := by
  rw [retry_calls_from]
  simp only [h, dif_pos]
  split
  · omega
  · split
    · omega
    · omega

theorem retry_sleeps_from_eq {α : Type} (attempts : Nat)
    (f : Nat → Except String α) :
    ∀ (k i : Nat), attempts - i ≤ k → i < attempts →
      retry_sleeps_from attempts f i = retry_calls_from attempts f i - 1 := by
  intro k
  induction k with
  | zero =>
    intro i hk hlt
    omega
  | succ k ih =>
    intro i hk hlt
    rw [retry_sleeps_from, retry_calls_from]
    simp only [hlt, dif_pos]
    split
    · simp
    · split
      · simp
      · rename_i hfe hlast
        have h1 := ih (i + 1) (by omega) (by omega)
        have h2 := retry_calls_from_pos attempts f (i + 1) (by omega)
        omega

theorem retry_all_fail_from {α : Type} (attempts : Nat)
    (f : Nat → Except String α) (errs : Nat → String)
    (hf : ∀ j, j < attempts → f j = .error (errs j)) :
    ∀ (k i : Nat), attempts - i ≤ k → i < attempts →
      retry_wrapper attempts f i = .error (errs (attempts - 1))
      ∧ retry_calls_from attempts f i = attempts - i := by
  intro k
  induction k with
  | zero =>
    intro i hk hlt
    omega
  | succ k ih =>
    intro i hk hlt
    constructor
    · rw [retry_wrapper]
      simp only [hlt, dif_pos, hf i hlt]
      split
      · rename_i hlast
        rw [hlast]
      · rename_i hlast
        exact (ih (i + 1) (by omega) (by omega)).1
    · rw [retry_calls_from]
      simp only [hlt, dif_pos, hf i hlt]
      split
      · rename_i hlast
        omega
      · rename_i hlast
        have := (ih (i + 1) (by omega) (by omega)).2
        omega

theorem retry_first_success_from {α : Type} (attempts : Nat)
    (f : Nat → Except String α) (j : Nat) (a : α)
    (hj : j < attempts) (hfj : f j = .ok a)
    (hbefore : ∀ i2, i2 < j → ∃ e, f i2 = .error e) :
    ∀ (k i : Nat), attempts - i ≤ k → i ≤ j →
      retry_wrapper attempts f i = .ok (some a)
      ∧ retry_calls_from attempts f i = j + 1 - i := by
  intro k
  induction k with
  | zero =>
    intro i hk hij
    omega
  | succ k ih =>
    intro i hk hij
    have hlt : i < attempts := by omega
    by_cases hej : i = j
    · subst hej
      constructor
      · rw [retry_wrapper]
        simp only [hlt, dif_pos, hfj]
      · rw [retry_calls_from]
        simp only [hlt, dif_pos, hfj]
        omega
    · obtain ⟨e, he⟩ := hbefore i (by omega)
      have hlast : ¬ i = attempts - 1 := by omega
      constructor
      · rw [retry_wrapper]
        simp only [hlt, dif_pos, he, hlast, if_false]
        exact (ih (i + 1) (by omega) (by omega)).1
      · rw [retry_calls_from]
        simp only [hlt, dif_pos, he, hlast, if_false]
        have := (ih (i + 1) (by omega) (by omega)).2
        omega

/-- **C8.** The retry wrapper calls the wrapped function at most
`attempts` times and sleeps exactly once between consecutive attempts;
when every attempt raises, the exception of the final attempt propagates
after exactly `attempts` invocations; when attempt `j` is the first to
succeed, its result is returned after exactly `j + 1` invocations with no
further attempts. -/
theorem c8_retry_bounded {α : Type} (attempts : Nat)
    (f : Nat → Except String α) :
    retry_calls attempts f ≤ attempts
  ∧ (0 < attempts →
      retry_sleeps attempts f = retry_calls attempts f - 1)
  ∧ (∀ errs : Nat → String, 0 < attempts →
      (∀ j, j < attempts → f j = .error (errs j)) →
      retry_on_failure attempts f = .error (errs (attempts - 1))
      ∧ retry_calls attempts f = attempts)
  ∧ (∀ (j : Nat) (a : α), j < attempts → f j = .ok a →
      (∀ i2, i2 < j → ∃ e, f i2 = .error e) →
      retry_on_failure attempts f = .ok (some a)
      ∧ retry_calls attempts f = j + 1) := by
  refine ⟨?_, ?_, ?_, ?_⟩
  · have := retry_calls_from_le attempts f attempts 0 (by omega)
    simpa [retry_calls] using this
  · intro hpos
    have := retry_sleeps_from_eq attempts f attempts 0 (by omega) hpos
    simpa [retry_calls, retry_sleeps] using this
  · intro errs hpos hf
    have := retry_all_fail_from attempts f errs hf attempts 0 (by omega) hpos
    constructor
    · exact this.1
    · have h2 := this.2
      simp only [retry_calls]
      omega
  · intro j a hj hfj hbefore
    have := retry_first_success_from attempts f j a hj hfj hbefore
      attempts 0 (by omega) (by omega)
    constructor
    · exact this.1
    · have h2 := this.2
      simp only [retry_calls]
      omega

/-- **C8, witness.** Two attempts, the first failing and the second
succeeding: the wrapper returns the success after exactly two invocations,
with one sleep in between. -/
theorem c8_retry_witness :
    (1 < 2 ∧ (fun i => if i = 0 then Except.error "boom"
        else Except.ok (7 : Nat)) 1 = Except.ok 7)
  ∧ (retry_on_failure 2 (fun i => if i = 0 then Except.error "boom"
        else Except.ok (7 : Nat)) = .ok (some 7)
    ∧ retry_calls 2 (fun i => if i = 0 then Except.error "boom"
        else Except.ok (7 : Nat)) = 1 + 1) :=
  ⟨⟨by decide, by decide⟩,
    (c8_retry_bounded 2 (fun i => if i = 0 then Except.error "boom"
        else Except.ok (7 : Nat))).2.2.2 1 7 (by decide) (by decide)
      (fun i2 hi2 => ⟨"boom", by
        have h0 : i2 = 0 := by omega
        subst h0
        rfl⟩)⟩

end DailyReadingBot
